import Mathlib

/-!
Verification of the solana-payment-processor core engine.

Shallow embedding of the Rust sources under src/: the fee splitter
(utils.rs), merchant registration (engine/register.rs), the shared
subscription checks (engine/common.rs), subscribe (engine/subscribe.rs),
renew (engine/renew.rs), cancel (engine/cancel_subscription.rs) and
withdraw (engine/withdraw.rs).

Modelling conventions:
  - Public keys are opaque identifiers; to_bytes, to_string and
    new_from_array are all the identity, so a key is modelled as a String.
  - Account records are modelled as typed Lean structures; Borsh
    (de)serialization of the byte buffers is the host platform's stable
    tagged-record encoding, out of scope per the spec, so unpack is
    modelled as reading the typed state directly.
  - u64 values are Nat, i64 timestamps and durations are Int; where the
    Rust release build wraps on overflow the model applies the explicit
    wrap-around reductions wrap64u and wrap64i.
  - A Rust panic (an out-of-bounds index) is a third outcome, distinct
    from a returned error: constructor ProcResult.panic.
-/

namespace PayProc

/-- Public keys: opaque identifiers, modelled as strings
(to_bytes / to_string / new_from_array are the identity). -/
abbrev Pubkey := String

/-- Errors returned by the engine functions: the ProgramError variants and
the PaymentProcessorError variants (error.rs) that the engine files under
src/ actually produce. -/
inductive PErr where
  | missingRequiredSignature
  | incorrectProgramId
  | uninitializedAccount
  | invalidAccountData
  | invalidSeeds
  | accountNotRentExempt
  | invalidSubscriptionData
  | invalidSubscriptionPackage
  | alreadyWithdrawn
  | invalidOrder
  | notFullyPaid
  | notPaid
  | wrongMerchant
  | wrongPayer
  | wrongProgramOwner
  | wrongSponsor
  | wrongOrderAccount
  | wrongMint
  deriving DecidableEq, Repr

/-- Outcome of one engine instruction: a value, a returned program error,
or a Rust panic (reached only by the out-of-bounds index on the
subscription-name split). -/
inductive ProcResult (α : Type) where
  | ok (a : α)
  | err (e : PErr)
  | panic
  deriving DecidableEq, Repr

/-- True exactly on the ok outcome. -/
def ProcResult.isOk {α : Type} : ProcResult α → Bool
  | .ok _ => true
  | _ => false

/-! ### Constants (engine/constants.rs, utils.rs) -/

/-- engine/constants.rs: the program owner key. -/
def PROGRAM_OWNER : Pubkey := "mosh782eoKyPca9eotWfepHVSKavjDMBjNkNE3Gge6Z"

/-- engine/constants.rs: seed for program derived addresses. -/
def PDA_SEED : String := "sol_payment_processor"

/-- engine/constants.rs: minimum fee in lamports. -/
def MIN_FEE_IN_LAMPORTS : Nat := 5000

/-- utils.rs: transaction fee percentage (per mille). -/
def FEE : Nat := 3

/-- utils.rs: sponsor fee percentage (per mille). -/
def SPONSOR_FEE : Nat := 3

/-- Modelled from the spec: the identity of the external token program
(spl_token::id()), an opaque constant key of the host platform. -/
def SPL_TOKEN_ID : Pubkey := "TokenkegQfeZyiNwAJbNbGKPFXCWuBvf9Ss623VQ5DA"

/-- 2 ^ 64, the u64 wrap modulus. -/
def U64MOD : Nat := 18446744073709551616

/-- Reduce a Nat into the u64 range, as the Rust release build wrap or an
explicit as-u64 cast does. -/
def wrap64u (n : Nat) : Nat := n % U64MOD

/-- Reduce an Int into the i64 range (two's complement wrap of the Rust
release build). -/
def wrap64i (i : Int) : Int := (i + 2 ^ 63) % 2 ^ 64 - 2 ^ 63

/-- Rust cast of an i64 value to u64 (two's complement reinterpretation). -/
def i64AsU64 (i : Int) : Nat := (i % 2 ^ 64).toNat

/-! ### Fee splitter (utils.rs, get_amounts) -/

/-- utils.rs get_amounts: given the expected amount and the fee percentage
(per mille), return (take_home_amount, fee_amount).  Arithmetic on amount
is done in u128 (exact here, since amount is a u64 value and
fee_percentage at most 1000 in every call site); the final fee is cast
back to u64 with wrap64u as the as-u64 cast does. -/
def get_amounts (amount : Nat) (fee_percentage : Nat) : Nat × Nat :=
  if 100 ≤ amount then
    let possible_fee_amount : Nat := amount * fee_percentage / 1000
    let fee_amount : Nat := if 0 < possible_fee_amount then wrap64u possible_fee_amount else 1
    (amount - fee_amount, fee_amount)
  else
    (amount, 0)

/-! ### Account state (record layouts)

The engine files use MerchantAccount, OrderAccount and SubscriptionAccount
with fields that the state.rs snapshot in src/ (an older revision) does not
declare; the layouts below are reconstructed from every field access in the
engine files, with the field meanings modelled from the spec data model. -/

/-- Merchant record as used by engine/register.rs and engine/common.rs:
status, owner, sponsor, fee, data.  Status 1 is Initialized. -/
structure MerchantAccount where
  status : Nat
  owner : Pubkey
  sponsor : Pubkey
  fee : Nat
  data : String
  deriving DecidableEq, Repr

/-- MerchantStatus::Initialized as u8. -/
def MerchantStatus.initialized : Nat := 1

/-- Modelled from the spec: a merchant record is initialized exactly when
its status is Initialized (the IsInitialized impl for this layout is not
in the src snapshot). -/
def MerchantAccount.is_initialized (m : MerchantAccount) : Bool :=
  m.status == MerchantStatus.initialized

/-- Order statuses; Uninitialized, Pending and Paid are declared in
state.rs, Cancelled and Withdrawn are modelled from the spec ordering
(Uninitialized, Pending, Paid, Cancelled, Withdrawn). -/
def OrderStatus.uninitialized : Nat := 0

/-- OrderStatus::Pending as u8. -/
def OrderStatus.pending : Nat := 1

/-- OrderStatus::Paid as u8. -/
def OrderStatus.paid : Nat := 2

/-- OrderStatus::Cancelled as u8 (modelled from the spec ordering). -/
def OrderStatus.cancelled : Nat := 3

/-- OrderStatus::Withdrawn as u8 (modelled from the spec ordering). -/
def OrderStatus.withdrawn : Nat := 4

/-- Order record as used by the engine files: status, timestamps, the
merchant / mint / token / payer keys, amounts, order_id, secret and the
opaque data string.  The fee_amount field appears in state.rs and is read
by engine/withdraw.rs. -/
structure OrderAccount where
  status : Nat
  created : Int
  modified : Int
  merchant : Pubkey
  mint : Pubkey
  token : Pubkey
  payer : Pubkey
  expected_amount : Nat
  paid_amount : Nat
  fee_amount : Nat
  order_id : String
  secret : String
  data : String
  deriving DecidableEq, Repr

/-- state.rs impl IsInitialized for OrderAccount: initialized exactly when
status is not Uninitialized. -/
def OrderAccount.is_initialized (o : OrderAccount) : Bool :=
  o.status != OrderStatus.uninitialized

/-- SubscriptionStatus::Initialized as u8. -/
def SubscriptionStatus.initialized : Nat := 1

/-- Subscription record as used by engine/subscribe.rs, renew.rs and
cancel_subscription.rs. -/
structure SubscriptionAccount where
  status : Nat
  owner : Pubkey
  merchant : Pubkey
  name : String
  joined : Int
  period_start : Int
  period_end : Int
  data : String
  deriving DecidableEq, Repr

/-- Modelled from the spec: a subscription record is initialized exactly
when its status is Initialized. -/
def SubscriptionAccount.is_initialized (s : SubscriptionAccount) : Bool :=
  s.status == SubscriptionStatus.initialized

/-- Subscription package (engine/json.rs declares name, duration and
price; engine/common.rs additionally reads mint and trial, whose
declaration is not in the src snapshot — mint modelled as the package
currency key string and trial, per the spec, as an optional trial length
in seconds). -/
structure Package where
  name : String
  duration : Int
  price : Nat
  mint : String
  trial : Option Int
  deriving DecidableEq, Repr

/-- One account handle as the engine sees it: its address, the program
that owns it, and whether it signed the transaction. -/
structure AccountInfo where
  key : Pubkey
  owner : Pubkey
  isSigner : Bool
  deriving DecidableEq, Repr

/-! ### Host-platform address derivation (modelled) -/

/-- Modelled from the spec: Pubkey::find_program_address on the fixed PDA
seed — a deterministic, program-identity-scoped derivation with no private
key.  Modelled as an injective tagged string build. -/
def find_program_address (seed : String) (program_id : Pubkey) : Pubkey :=
  "pda(" ++ seed ++ "," ++ program_id ++ ")"

/-- Modelled from the spec: the per-order escrow token address derived
from (order address, token-program identity, mint). -/
def associated_token_address (order : Pubkey) (token_program : Pubkey)
    (mint : Pubkey) (program_id : Pubkey) : Pubkey :=
  "ata(" ++ order ++ "," ++ token_program ++ "," ++ mint ++ "," ++ program_id ++ ")"

/-! ### The subscription-name split (Rust str::split)

Rust name.split(":").collect::<Vec<_>>() splits on every occurrence of the
one-character separator, yielding one (possibly empty) piece more than the
number of separators; indexing the resulting vector at 1 panics when the
name holds no separator.  splitChar is the same split on the character
list of the string. -/

/-- Rust str::split on a one-character separator, over the character list:
an empty input gives one empty piece, each separator occurrence starts a
new piece. -/
def splitChar (sep : Char) : List Char → List (List Char)
  | [] => [[]]
  | c :: rest =>
    if c = sep then [] :: splitChar sep rest
    else
      match splitChar sep rest with
      | [] => [[c]]
      | h :: t => (c :: h) :: t

/-- The package-name extraction of engine/common.rs line 64-65 (and its
copies in subscribe.rs and renew.rs): split the subscription name on the
colon and take element 1.  Total model: none stands for the Rust
out-of-bounds panic. -/
def packageNameOf (name : String) : Option String :=
  ((splitChar (':') name.data).get? 1).map (fun l => String.mk l)

/-! ### JSON parsing of the data fields (external serde_json)

serde_json is an external library (the spec treats serialization formats
as collaborator interfaces); the two schema parses the engine performs are
modelled from the spec section 6: the merchant catalog
(a packages list of name / duration / price and optionally mint and
trial) and the order linkage record (a single subscription key).  The
parsers below accept the canonical rendering of those schemas. -/

/-- Canonical text of the default data value of constants.rs. -/
def DEFAULT_DATA : String := "\x7b\x7d"

/-- Take characters up to the closing double quote; none when the quote
never comes. -/
def takeStr : List Char → Option (List Char × List Char)
  | [] => none
  | c :: rest =>
    if c = '"' then some ([], rest)
    else (takeStr rest).map (fun p => (c :: p.1, p.2))

/-- Longest digit run at the head of the list, and the rest. -/
def takeDigits : List Char → List Char × List Char
  | [] => ([], [])
  | c :: rest =>
    if c.isDigit then
      let p := takeDigits rest
      (c :: p.1, p.2)
    else ([], c :: rest)

/-- Digit run to a natural number. -/
def digitsToNat (l : List Char) : Nat :=
  l.foldl (fun a c => a * 10 + (c.toNat - 48)) 0

/-- Parse a decimal natural number; none when no digit is present. -/
def parseNatNum (s : List Char) : Option (Nat × List Char) :=
  let p := takeDigits s
  if p.1.isEmpty then none else some (digitsToNat p.1, p.2)

/-- Parse a decimal integer with an optional leading minus sign. -/
def parseIntNum (s : List Char) : Option (Int × List Char) :=
  match s with
  | '-' :: rest => (parseNatNum rest).map (fun p => (-(p.1 : Int), p.2))
  | _ => (parseNatNum s).map (fun p => ((p.1 : Int), p.2))

/-- Require the exact prefix pre, returning what follows it. -/
def expectChars (pre : List Char) (s : List Char) : Option (List Char) :=
  if s.take pre.length = pre then some (s.drop pre.length) else none

/-- Canonical opener of one package object up to the name value. -/
def pkgNamePre : String := "\x7b\"name\":\""

/-- Canonical key text before the duration value. -/
def pkgDurationPre : String := ",\"duration\":"

/-- Canonical key text before the price value. -/
def pkgPricePre : String := ",\"price\":"

/-- Canonical key text before the mint value. -/
def pkgMintPre : String := ",\"mint\":\""

/-- Canonical key text before the trial value. -/
def pkgTrialPre : String := ",\"trial\":"

/-- Closing brace of an object. -/
def objClose : String := "\x7d"

/-- Canonical opener of the order linkage record up to the subscription
key value. -/
def subLinkPre : String := "\x7b\"subscription\":\""

/-- Canonical opener of the merchant catalog up to the packages list. -/
def packagesPre : String := "\x7b\"packages\":["

/-- Canonical closer of the merchant catalog after the packages list. -/
def packagesSuf : String := "]\x7d"

/-- Parse one package object in canonical field order; mint and trial are
optional. -/
def parsePackage (s : List Char) : Option (Package × List Char) := do
  let s ← expectChars pkgNamePre.data s
  let (nm, s) ← takeStr s
  let s ← expectChars pkgDurationPre.data s
  let (dur, s) ← parseIntNum s
  let s ← expectChars pkgPricePre.data s
  let (price, s) ← parseNatNum s
  let (mint, s) ←
    match expectChars pkgMintPre.data s with
    | some s2 => takeStr s2
    | none => some (([] : List Char), s)
  let (trial, s) ←
    match expectChars pkgTrialPre.data s with
    | some s2 => (parseIntNum s2).map (fun p => (some p.1, p.2))
    | none => some ((none : Option Int), s)
  let s ← expectChars objClose.data s
  pure ({ name := String.mk nm, duration := dur, price := price,
          mint := String.mk mint, trial := trial }, s)

/-- Parse a comma-separated run of package objects; the fuel bounds the
recursion by the input length. -/
def parseItems (fuel : Nat) (s : List Char) : Option (List Package × List Char) :=
  match fuel with
  | 0 => none
  | fuel + 1 =>
    match parsePackage s with
    | none => none
    | some (p, s) =>
      match s with
      | ',' :: rest =>
        match parseItems fuel rest with
        | none => none
        | some (ps, s2) => some (p :: ps, s2)
      | _ => some ([p], s)

/-- Modelled from the spec: serde_json deserialization of the merchant
catalog schema, Packages with a packages list. -/
def parsePackages (s : String) : Option (List Package) :=
  match expectChars packagesPre.data s.data with
  | none => none
  | some rest =>
    if rest = packagesSuf.data then some []
    else
      match parseItems rest.length rest with
      | none => none
      | some (ps, rest2) =>
        if rest2 = packagesSuf.data then some ps else none

/-- Modelled from the spec: serde_json deserialization of the order
linkage schema, OrderSubscription with one subscription key. -/
def parseOrderSubscription (s : String) : Option String :=
  match expectChars subLinkPre.data s.data with
  | none => none
  | some rest =>
    match takeStr rest with
    | none => none
    | some (key, rest2) =>
      if rest2 = objClose.data then some (String.mk key) else none

/-! ### Merchant registration (engine/register.rs) -/

/-- Input of process_register_merchant: program identity, the accounts in
positional order, and the instruction arguments.  rent_exempt is the
outcome of the host rent sysvar check on the merchant record. -/
structure RegisterInput where
  program_id : Pubkey
  signer : AccountInfo
  merchant_info : AccountInfo
  possible_sponsor : Option AccountInfo
  seed : Option String
  maybe_fee : Option Nat
  maybe_data : Option String
  rent_exempt : Bool
  deriving DecidableEq, Repr

/-- engine/register.rs process_register_merchant, as written: lines 36-40
hash a constant string with murmur3, log it, and unconditionally return
Err(MissingRequiredSignature) before the signature check; every line of
the function after line 40 is unreachable. -/
def process_register_merchant (_inp : RegisterInput) : ProcResult MerchantAccount :=
  ProcResult.err PErr.missingRequiredSignature

/-- The unreachable remainder of process_register_merchant (register.rs
lines 42-106), translated as written: the signature check, the default
data value, the merchant record write (owner from the signer, sponsor
defaulting to the program owner, fee clamped from below by the minimum
fee), and the closing rent-exemption check. -/
def register_merchant_tail (inp : RegisterInput) : ProcResult MerchantAccount :=
  if !inp.signer.isSigner then ProcResult.err PErr.missingRequiredSignature
  else
    let data :=
      match inp.maybe_data with
      | none => DEFAULT_DATA
      | some value => value
    let merchant : MerchantAccount :=
      { status := MerchantStatus.initialized
        owner := inp.signer.key
        sponsor :=
          match inp.possible_sponsor with
          | some sponsor_info => sponsor_info.key
          | none => PROGRAM_OWNER
        fee :=
          match inp.maybe_fee with
          | none => MIN_FEE_IN_LAMPORTS
          | some value => if MIN_FEE_IN_LAMPORTS < value then value else MIN_FEE_IN_LAMPORTS
        data := data }
    if !inp.rent_exempt then ProcResult.err PErr.accountNotRentExempt
    else ProcResult.ok merchant

/-! ### Shared subscription checks (engine/common.rs, subscribe_checks) -/

/-- Accounts and records handed to subscribe_checks. -/
structure ChecksInput where
  program_id : Pubkey
  signer : AccountInfo
  merchant_info : AccountInfo
  order_info : AccountInfo
  subscription_info : AccountInfo
  merchant : MerchantAccount
  order : OrderAccount
  deriving DecidableEq, Repr

/-- engine/common.rs subscribe_checks: signer, record-owner and
initialization checks, the order-to-subscription linkage check on the
order data, payer / Paid / merchant checks, then the package-name split
(the panic point), catalog parse, first-match package resolution and the
mint check. -/
def subscribe_checks (inp : ChecksInput) (subscription_name : String) :
    ProcResult (OrderAccount × Package) :=
  if !inp.signer.isSigner then ProcResult.err PErr.missingRequiredSignature
  else if inp.merchant_info.owner ≠ inp.program_id then ProcResult.err PErr.incorrectProgramId
  else if inp.order_info.owner ≠ inp.program_id then ProcResult.err PErr.incorrectProgramId
  else if !inp.merchant.is_initialized then ProcResult.err PErr.uninitializedAccount
  else
    match parseOrderSubscription inp.order.data with
    | none => ProcResult.err PErr.invalidSubscriptionData
    | some expected_subscription =>
      if expected_subscription ≠ inp.subscription_info.key then
        ProcResult.err PErr.wrongOrderAccount
      else if inp.signer.key ≠ inp.order.payer then ProcResult.err PErr.wrongPayer
      else if inp.order.status ≠ OrderStatus.paid then ProcResult.err PErr.notPaid
      else if inp.merchant_info.key ≠ inp.order.merchant then
        ProcResult.err PErr.invalidAccountData
      else
        match packageNameOf subscription_name with
        | none => ProcResult.panic
        | some package_name =>
          match parsePackages inp.merchant.data with
          | none => ProcResult.err PErr.invalidSubscriptionData
          | some packages =>
            match packages.find? (fun package => package.name == package_name) with
            | none => ProcResult.err PErr.invalidSubscriptionPackage
            | some package =>
              if package.mint ≠ inp.order.mint then ProcResult.err PErr.wrongMint
              else ProcResult.ok (inp.order, package)

/-! ### Cancel (engine/cancel_subscription.rs) -/

/-- Accounts and records handed to process_cancel_subscription. -/
structure CancelInput where
  program_id : Pubkey
  signer : AccountInfo
  subscription_info : AccountInfo
  merchant_info : AccountInfo
  order_info : AccountInfo
  order_token_info : AccountInfo
  refund_token_info : AccountInfo
  pda_info : AccountInfo
  subscription : SubscriptionAccount
  merchant : MerchantAccount
  order : OrderAccount
  timestamp : Int
  deriving DecidableEq, Repr

/-- Outcome of a successful cancel: the rewritten order record and the
escrow-to-payer transfer amount (none when the refund branch was
skipped). -/
structure CancelResult where
  order : OrderAccount
  refund : Option Nat
  deriving DecidableEq, Repr

/-- engine/cancel_subscription.rs process_cancel_subscription: the account
checks, subscribe_checks on the stored subscription name, the order-token
and payer checks; then the trial gate, which only decides whether the
escrow is refunded — the order is marked Cancelled on both branches. -/
def process_cancel_subscription (inp : CancelInput) : ProcResult CancelResult :=
  if !inp.signer.isSigner then ProcResult.err PErr.missingRequiredSignature
  else if inp.subscription_info.owner ≠ inp.program_id then ProcResult.err PErr.incorrectProgramId
  else if inp.order_token_info.owner ≠ SPL_TOKEN_ID then ProcResult.err PErr.incorrectProgramId
  else if inp.refund_token_info.owner ≠ SPL_TOKEN_ID then ProcResult.err PErr.incorrectProgramId
  else if inp.pda_info.key ≠ find_program_address PDA_SEED inp.program_id then
    ProcResult.err PErr.invalidSeeds
  else if !inp.subscription.is_initialized then ProcResult.err PErr.uninitializedAccount
  else
    match subscribe_checks
        { program_id := inp.program_id, signer := inp.signer
          merchant_info := inp.merchant_info, order_info := inp.order_info
          subscription_info := inp.subscription_info
          merchant := inp.merchant, order := inp.order }
        inp.subscription.name with
    | ProcResult.panic => ProcResult.panic
    | ProcResult.err e => ProcResult.err e
    | ProcResult.ok (order_account, package) =>
      if inp.order_token_info.key ≠ order_account.token then
        ProcResult.err PErr.invalidAccountData
      else if inp.signer.key ≠ order_account.payer then
        ProcResult.err PErr.invalidAccountData
      else
        let trial_duration : Int :=
          match package.trial with
          | none => 0
          | some value => value
        let refund : Option Nat :=
          if wrap64i (inp.subscription.joined + trial_duration) < inp.timestamp then none
          else some order_account.paid_amount
        ProcResult.ok
          { order := { order_account with
              status := OrderStatus.cancelled, modified := inp.timestamp }
            refund := refund }

/-! ### Subscribe (engine/subscribe.rs) -/

/-- Accounts, records and arguments handed to process_subscribe. -/
structure SubscribeInput where
  program_id : Pubkey
  signer : AccountInfo
  subscription_info : AccountInfo
  merchant_info : AccountInfo
  order_info : AccountInfo
  merchant : MerchantAccount
  order : OrderAccount
  name : String
  maybe_data : Option String
  timestamp : Int
  rent_exempt : Bool
  deriving DecidableEq, Repr

/-- engine/subscribe.rs process_subscribe: signer / owner /
initialization / payer / Paid / merchant checks, the package-name split
(the panic point) and the order-id-equals-package-name check, catalog
parse and first-match resolution, the payment check
price * (duration as u64) > paid_amount, then the subscription record
write with joined = period_start = now and period_end = now + duration,
and the closing rent-exemption check.  No order-to-subscription linkage
check and no trial handling appear in this function. -/
def process_subscribe (inp : SubscribeInput) : ProcResult SubscriptionAccount :=
  if !inp.signer.isSigner then ProcResult.err PErr.missingRequiredSignature
  else if inp.merchant_info.owner ≠ inp.program_id then ProcResult.err PErr.incorrectProgramId
  else if inp.order_info.owner ≠ inp.program_id then ProcResult.err PErr.incorrectProgramId
  else if !inp.merchant.is_initialized then ProcResult.err PErr.uninitializedAccount
  else if inp.signer.key ≠ inp.order.payer then ProcResult.err PErr.wrongPayer
  else if inp.order.status ≠ OrderStatus.paid then ProcResult.err PErr.notPaid
  else if inp.merchant_info.key ≠ inp.order.merchant then ProcResult.err PErr.invalidAccountData
  else
    match packageNameOf inp.name with
    | none => ProcResult.panic
    | some package_name =>
      if inp.order.order_id ≠ package_name then ProcResult.err PErr.invalidOrder
      else
        match parsePackages inp.merchant.data with
        | none => ProcResult.err PErr.invalidSubscriptionData
        | some packages =>
          match packages.find? (fun package => package.name == package_name) with
          | none => ProcResult.err PErr.invalidSubscriptionPackage
          | some package =>
            if inp.order.paid_amount < wrap64u (package.price * i64AsU64 package.duration) then
              ProcResult.err PErr.notFullyPaid
            else
              let data :=
                match inp.maybe_data with
                | none => DEFAULT_DATA
                | some value => value
              let subscription : SubscriptionAccount :=
                { status := SubscriptionStatus.initialized
                  owner := inp.signer.key
                  merchant := inp.merchant_info.key
                  name := inp.name
                  joined := inp.timestamp
                  period_start := inp.timestamp
                  period_end := wrap64i (inp.timestamp + package.duration)
                  data := data }
              if !inp.rent_exempt then ProcResult.err PErr.accountNotRentExempt
              else ProcResult.ok subscription

/-! ### Renew (engine/renew.rs) -/

/-- Accounts, records and arguments handed to
process_renew_subscription. -/
structure RenewInput where
  program_id : Pubkey
  signer : AccountInfo
  subscription_info : AccountInfo
  merchant_info : AccountInfo
  order_info : AccountInfo
  merchant : MerchantAccount
  order : OrderAccount
  subscription : SubscriptionAccount
  quantity : Int
  timestamp : Int
  deriving DecidableEq, Repr

/-- engine/renew.rs process_renew_subscription: signer / owner /
initialization checks, the order-to-subscription linkage check, payer /
Paid / merchant checks, the package-name split on the stored subscription
name (the panic point), catalog parse and first-match resolution, the
payment check (quantity as u64) * price > paid_amount, then the period
update: a lapsed subscription (now past period_end) restarts at now,
otherwise duration * quantity is added to the current period_end. -/
def process_renew_subscription (inp : RenewInput) : ProcResult SubscriptionAccount :=
  if !inp.signer.isSigner then ProcResult.err PErr.missingRequiredSignature
  else if inp.merchant_info.owner ≠ inp.program_id then ProcResult.err PErr.incorrectProgramId
  else if inp.order_info.owner ≠ inp.program_id then ProcResult.err PErr.incorrectProgramId
  else if inp.subscription_info.owner ≠ inp.program_id then ProcResult.err PErr.incorrectProgramId
  else if !inp.merchant.is_initialized then ProcResult.err PErr.uninitializedAccount
  else
    match parseOrderSubscription inp.order.data with
    | none => ProcResult.err PErr.invalidSubscriptionData
    | some expected_subscription =>
      if expected_subscription ≠ inp.subscription_info.key then
        ProcResult.err PErr.wrongOrderAccount
      else if inp.signer.key ≠ inp.order.payer then ProcResult.err PErr.wrongPayer
      else if inp.order.status ≠ OrderStatus.paid then ProcResult.err PErr.notPaid
      else if inp.merchant_info.key ≠ inp.order.merchant then
        ProcResult.err PErr.invalidAccountData
      else if !inp.subscription.is_initialized then ProcResult.err PErr.uninitializedAccount
      else
        match packageNameOf inp.subscription.name with
        | none => ProcResult.panic
        | some package_name =>
          match parsePackages inp.merchant.data with
          | none => ProcResult.err PErr.invalidSubscriptionData
          | some packages =>
            match packages.find? (fun package => package.name == package_name) with
            | none => ProcResult.err PErr.invalidSubscriptionPackage
            | some package =>
              let expected_amount := wrap64u (i64AsU64 inp.quantity * package.price)
              if inp.order.paid_amount < expected_amount then
                ProcResult.err PErr.notFullyPaid
              else if inp.subscription.period_end < inp.timestamp then
                ProcResult.ok { inp.subscription with
                  period_start := inp.timestamp
                  period_end :=
                    wrap64i (inp.timestamp + wrap64i (package.duration * inp.quantity)) }
              else
                ProcResult.ok { inp.subscription with
                  period_end :=
                    wrap64i (inp.subscription.period_end
                      + wrap64i (package.duration * inp.quantity)) }

/-! ### Withdraw (engine/withdraw.rs) -/

/-- Accounts and records handed to process_withdraw_payment.  The three
owner fields carry the owner recorded inside the respective external
token accounts (TokenAccount::unpack(..).owner); no subscription account
appears in this instruction's account list. -/
structure WithdrawInput where
  program_id : Pubkey
  signer : AccountInfo
  order_info : AccountInfo
  merchant_info : AccountInfo
  order_payment_token_info : AccountInfo
  merchant_token_info : AccountInfo
  program_owner_token_info : AccountInfo
  sponsor_token_info : AccountInfo
  pda_info : AccountInfo
  merchant : MerchantAccount
  order : OrderAccount
  program_owner_token_owner : Pubkey
  merchant_token_owner : Pubkey
  sponsor_token_owner : Pubkey
  timestamp : Int
  deriving DecidableEq, Repr

/-- Outcome of a successful withdrawal: the rewritten order record, the
escrow-to-merchant transfer amount, and the fee transfers to the program
owner and the sponsor. -/
structure WithdrawResult where
  order : OrderAccount
  merchant_transfer : Nat
  program_owner_fee : Nat
  sponsor_fee : Nat
  deriving DecidableEq, Repr

/-- engine/withdraw.rs process_withdraw_payment: signer / owner / pda /
program-owner / merchant / sponsor / order checks, the escrow address
re-derivation, then the transfers — the full paid_amount to the merchant
token account, and the recorded fee_amount either wholly to the program
owner (when the merchant sponsor is the program owner) or split by
get_amounts between program owner and sponsor — and the order rewrite to
Withdrawn.  The current time is only stored in the modified field; no
trial or subscription condition is checked anywhere. -/
def process_withdraw_payment (inp : WithdrawInput) : ProcResult WithdrawResult :=
  if !inp.signer.isSigner then ProcResult.err PErr.missingRequiredSignature
  else if inp.merchant_info.owner ≠ inp.program_id then ProcResult.err PErr.incorrectProgramId
  else if inp.order_info.owner ≠ inp.program_id then ProcResult.err PErr.incorrectProgramId
  else if inp.merchant_token_info.owner ≠ SPL_TOKEN_ID then ProcResult.err PErr.incorrectProgramId
  else if inp.pda_info.key ≠ find_program_address PDA_SEED inp.program_id then
    ProcResult.err PErr.invalidSeeds
  else if inp.program_owner_token_owner ≠ PROGRAM_OWNER then
    ProcResult.err PErr.wrongProgramOwner
  else if !inp.merchant.is_initialized then ProcResult.err PErr.uninitializedAccount
  else if inp.merchant_token_owner ≠ inp.merchant.owner then ProcResult.err PErr.wrongMerchant
  else if inp.sponsor_token_owner ≠ inp.merchant.sponsor then ProcResult.err PErr.wrongSponsor
  else if !inp.order.is_initialized then ProcResult.err PErr.uninitializedAccount
  else if inp.merchant_info.key ≠ inp.order.merchant then ProcResult.err PErr.invalidAccountData
  else if inp.order_payment_token_info.key ≠ inp.order.token then
    ProcResult.err PErr.invalidAccountData
  else if inp.order.status ≠ OrderStatus.paid then ProcResult.err PErr.alreadyWithdrawn
  else if associated_token_address inp.order_info.key SPL_TOKEN_ID inp.order.mint inp.program_id
      ≠ inp.order_payment_token_info.key then
    ProcResult.err PErr.invalidSeeds
  else
    let fees : Nat × Nat :=
      if inp.merchant.sponsor = PROGRAM_OWNER then (inp.order.fee_amount, 0)
      else
        let split := get_amounts inp.order.fee_amount SPONSOR_FEE
        (split.1, split.2)
    ProcResult.ok
      { order := { inp.order with
          status := OrderStatus.withdrawn, modified := inp.timestamp }
        merchant_transfer := inp.order.paid_amount
        program_owner_fee := fees.1
        sponsor_fee := fees.2 }

/-! ### Concrete fixtures

A small merchant / order / subscription world used by the witnesses and
counterexamples: one merchant whose catalog holds one package (name gold,
duration 2592000 seconds, price 1000, mint MINT1, trial 86400 seconds),
one paid order for it, and one subscription named abc:gold. -/

/-- The program identity used by the fixtures. -/
def pidFix : Pubkey := "PID"

/-- The paying signer. -/
def payerFix : AccountInfo := { key := "PAYER", owner := "SYSTEM", isSigner := true }

/-- The merchant record account handle. -/
def merchantInfoFix : AccountInfo := { key := "MERCH", owner := "PID", isSigner := false }

/-- The order record account handle. -/
def orderInfoFix : AccountInfo := { key := "ORDER", owner := "PID", isSigner := false }

/-- The subscription record account handle. -/
def subInfoFix : AccountInfo := { key := "SUBKEY", owner := "PID", isSigner := false }

/-- The derived custodial-signer account handle. -/
def pdaInfoFix : AccountInfo :=
  { key := find_program_address PDA_SEED pidFix, owner := "PID", isSigner := false }

/-- A token account handle owned by the token program. -/
def tokInfoFix (k : Pubkey) : AccountInfo :=
  { key := k, owner := SPL_TOKEN_ID, isSigner := false }

/-- The gold package of the fixture catalog. -/
def goldPkg : Package :=
  { name := "gold", duration := 2592000, price := 1000, mint := "MINT1", trial := some 86400 }

/-- Canonical catalog text resolving to the gold package. -/
def catalogFix : String :=
  "\x7b\"packages\":[\x7b\"name\":\"gold\",\"duration\":2592000,\"price\":1000,\"mint\":\"MINT1\",\"trial\":86400\x7d]\x7d"

/-- Canonical order linkage text naming the fixture subscription. -/
def orderLinkFix : String := "\x7b\"subscription\":\"SUBKEY\"\x7d"

/-- The fixture merchant: initialized, sponsored by the program owner. -/
def merchantFix : MerchantAccount :=
  { status := 1, owner := "MOWNER", sponsor := PROGRAM_OWNER, fee := 5000, data := catalogFix }

/-- Escrow token address of the fixture order, at its derivation. -/
def escrowKeyFix : Pubkey :=
  associated_token_address "ORDER" SPL_TOKEN_ID "MINT1" pidFix

/-- The fixture order: Paid, 1000 paid in full, linked to SUBKEY. -/
def orderFix : OrderAccount :=
  { status := 2, created := 0, modified := 0, merchant := "MERCH", mint := "MINT1"
    token := escrowKeyFix, payer := "PAYER", expected_amount := 1000, paid_amount := 1000
    fee_amount := 5000, order_id := "gold", secret := "", data := orderLinkFix }

/-- The fixture order with the amount the subscribe payment check asks
for (price times duration). -/
def orderRichFix : OrderAccount :=
  { orderFix with expected_amount := 2592000000, paid_amount := 2592000000 }

/-- The fixture subscription, joined at time 1000. -/
def subscriptionFix : SubscriptionAccount :=
  { status := 1, owner := "PAYER", merchant := "MERCH", name := "abc:gold"
    joined := 1000, period_start := 1000, period_end := 2593000, data := DEFAULT_DATA }

/-- Cancel invocation on the fixture world after the trial window:
joined 1000 plus trial 86400 is 87400, the clock reads 87401. -/
def cancelLateFix : CancelInput :=
  { program_id := pidFix, signer := payerFix, subscription_info := subInfoFix
    merchant_info := merchantInfoFix, order_info := orderInfoFix
    order_token_info := tokInfoFix escrowKeyFix, refund_token_info := tokInfoFix "REFUND"
    pda_info := pdaInfoFix, subscription := subscriptionFix, merchant := merchantFix
    order := orderFix, timestamp := 87401 }

/-- Subscribe invocation on the fixture world with the order paid in full
at the package price (1000). -/
def subscribeFix : SubscribeInput :=
  { program_id := pidFix, signer := payerFix, subscription_info := subInfoFix
    merchant_info := merchantInfoFix, order_info := orderInfoFix
    merchant := merchantFix, order := orderFix, name := "abc:gold"
    maybe_data := none, timestamp := 1000, rent_exempt := true }

/-- Renew invocation on the fixture world, quantity 1, clock past the
fixture period_end. -/
def renewFix : RenewInput :=
  { program_id := pidFix, signer := payerFix, subscription_info := subInfoFix
    merchant_info := merchantInfoFix, order_info := orderInfoFix
    merchant := merchantFix, order := orderFix, subscription := subscriptionFix
    quantity := 1, timestamp := 5000000 }

/-- Withdraw invocation on the fixture world at clock 1000, the very
moment the fixture subscription joined (its 86400-second trial is still
running). -/
def withdrawFix : WithdrawInput :=
  { program_id := pidFix, signer := payerFix, order_info := orderInfoFix
    merchant_info := merchantInfoFix, order_payment_token_info := tokInfoFix escrowKeyFix
    merchant_token_info := tokInfoFix "MTOK", program_owner_token_info := tokInfoFix "POTOK"
    sponsor_token_info := tokInfoFix "STOK", pda_info := pdaInfoFix
    merchant := merchantFix, order := orderFix
    program_owner_token_owner := PROGRAM_OWNER, merchant_token_owner := "MOWNER"
    sponsor_token_owner := PROGRAM_OWNER, timestamp := 1000 }

/-! ### Helper lemmas -/

/-- wrap64i is the identity on the i64 range. -/
theorem wrap64i_eq_of_range (x : Int) (h1 : -(2 ^ 63) ≤ x) (h2 : x < 2 ^ 63) :
    wrap64i x = x := by
  unfold wrap64i
  omega

/-- Splitting on a character that does not occur returns the whole list
as the single piece. -/
theorem splitChar_of_not_mem (c : Char) (l : List Char) (h : c ∉ l) :
    splitChar c l = [l] := by
  induction l with
  | nil => rfl
  | cons x xs ih =>
    have hx : ¬ x = c := fun hc => h (hc ▸ List.mem_cons_self x xs)
    have hxs : c ∉ xs := fun hc => h (List.mem_cons_of_mem x hc)
    simp [splitChar, hx, ih hxs]

/-- A subscription name with no colon leaves the package-name extraction
out of bounds. -/
theorem packageNameOf_of_no_colon (s : String) (h : (':') ∉ s.data) :
    packageNameOf s = none := by
  unfold packageNameOf
  rw [splitChar_of_not_mem (':') s.data h]
  rfl

/-- subscribe_checks only succeeds on a Paid order, and returns that very
order. -/
theorem subscribe_checks_ok_inv (inp : ChecksInput) (n : String)
    (r : OrderAccount × Package) (h : subscribe_checks inp n = ProcResult.ok r) :
    inp.order.status = OrderStatus.paid ∧ r.1 = inp.order := by
  unfold subscribe_checks at h
  repeat' split at h
  all_goals (try simp_all)
  rw [← h]

/-! ### Claim theorems -/

/-- C8: for every u64 amount a under the default per-mille rate, the fee
splitter returns (t, f) with t + f = a; f = 0 whenever a < 100; and for
a >= 100, f = max(1, floor(a * rate / 1000)) with t = a - f. -/
theorem get_amounts_default_correct (a : Nat) (ha : a < U64MOD) :
    (get_amounts a FEE).1 + (get_amounts a FEE).2 = a ∧
    (a < 100 → (get_amounts a FEE).2 = 0) ∧
    (100 ≤ a → (get_amounts a FEE).2 = max 1 (a * FEE / 1000) ∧
      (get_amounts a FEE).1 = a - max 1 (a * FEE / 1000)) := by
  have hd : a * FEE / 1000 ≤ a := by
    simp only [FEE]
    omega
  have hmod : wrap64u (a * FEE / 1000) = a * FEE / 1000 := by
    simp only [wrap64u, U64MOD] at *
    omega
  unfold get_amounts
  split
  · dsimp only
    rw [hmod]
    split <;> refine ⟨?_, ?_, ?_⟩ <;> intros <;> omega
  · refine ⟨?_, ?_, ?_⟩ <;> intros <;> omega

/-- Witness for C8 at a = 12345: take-home 12309, fee 36. -/
theorem get_amounts_default_correct_witness :
    (12345 : Nat) < U64MOD ∧
    (get_amounts 12345 FEE).1 + (get_amounts 12345 FEE).2 = 12345 ∧
    ((12345 : Nat) < 100 → (get_amounts 12345 FEE).2 = 0) ∧
    (100 ≤ (12345 : Nat) → (get_amounts 12345 FEE).2 = max 1 (12345 * FEE / 1000) ∧
      (get_amounts 12345 FEE).1 = 12345 - max 1 (12345 * FEE / 1000)) :=
  ⟨by decide, get_amounts_default_correct 12345 (by decide)⟩

/-- A register invocation with a signing payer, a program-owned fresh
merchant record, no sponsor and a requested fee of 6000. -/
def registerFix : RegisterInput :=
  { program_id := pidFix, signer := payerFix, merchant_info := merchantInfoFix
    possible_sponsor := none, seed := none, maybe_fee := some 6000
    maybe_data := none, rent_exempt := true }

/-- C1: register.rs lines 36-40 return Err(MissingRequiredSignature)
unconditionally, before the signature check, so even this fully valid
signing invocation — and indeed every invocation — is rejected and no
merchant record is ever written. -/
theorem register_always_rejects :
    registerFix.signer.isSigner = true ∧
    process_register_merchant registerFix = ProcResult.err PErr.missingRequiredSignature ∧
    (∀ inp : RegisterInput,
      process_register_merchant inp = ProcResult.err PErr.missingRequiredSignature) :=
  ⟨rfl, rfl, fun _ => rfl⟩

/-- The unreachable tail of register.rs would have written exactly the
fields the spec describes: status Initialized, owner the signer, sponsor
defaulting to the program owner, fee clamped from below by the minimum,
data defaulting to the empty object. -/
theorem register_merchant_tail_effect (inp : RegisterInput)
    (h1 : inp.signer.isSigner = true) (h2 : inp.rent_exempt = true) :
    register_merchant_tail inp = ProcResult.ok
      { status := MerchantStatus.initialized
        owner := inp.signer.key
        sponsor := (inp.possible_sponsor.map (fun s => s.key)).getD PROGRAM_OWNER
        fee := max MIN_FEE_IN_LAMPORTS (inp.maybe_fee.getD MIN_FEE_IN_LAMPORTS)
        data := inp.maybe_data.getD DEFAULT_DATA } := by
  unfold register_merchant_tail
  rw [h1, h2]
  cases hs : inp.possible_sponsor <;> cases hf : inp.maybe_fee <;>
    cases hd : inp.maybe_data <;>
      simp [MerchantAccount.mk.injEq, MIN_FEE_IN_LAMPORTS, Nat.max_def] <;>
        split_ifs <;> omega

/-- C2: cancelling the fixture subscription one second after the trial
window (joined 1000 + trial 86400 < clock 87401) is not rejected: the
order is still marked Cancelled and modified, but no refund transfer is
issued — the payer's escrowed 1000 is kept and the order leaves the Paid
state. -/
theorem cancel_after_trial_cancels_without_refund :
    parsePackages cancelLateFix.merchant.data = some [goldPkg] ∧
    goldPkg.trial = some 86400 ∧
    wrap64i (cancelLateFix.subscription.joined + 86400) < cancelLateFix.timestamp ∧
    cancelLateFix.order.status = OrderStatus.paid ∧
    process_cancel_subscription cancelLateFix = ProcResult.ok
      { order := { orderFix with status := OrderStatus.cancelled, modified := 87401 }
        refund := none } :=
  ⟨rfl, rfl, by decide, rfl, rfl⟩

/-- C6: the fixture order paid the package price in full (1000 paid,
price 1000), yet subscribe rejects it with the payment-sufficiency error,
because the check compares paid_amount against price * duration
(1000 * 2592000) rather than price. -/
theorem subscribe_rejects_full_price_payment :
    parsePackages subscribeFix.merchant.data = some [goldPkg] ∧
    goldPkg.price = 1000 ∧
    subscribeFix.order.paid_amount = 1000 ∧
    goldPkg.price ≤ subscribeFix.order.paid_amount ∧
    process_subscribe subscribeFix = ProcResult.err PErr.notFullyPaid :=
  ⟨rfl, rfl, rfl, by decide, rfl⟩

/-- Subscribe invocation whose order paid what the subscribe payment
check demands (price times duration). -/
def subscribeRichFix : SubscribeInput := { subscribeFix with order := orderRichFix }

/-- C5 counterexample: on the fixture package (duration 2592000, trial
86400) a successful subscribe at time 1000 writes period_end 2593000 =
now + duration; the claimed now + trial + duration would be 2679400. -/
theorem subscribe_period_end_has_no_trial_cex :
    parsePackages subscribeRichFix.merchant.data = some [goldPkg] ∧
    goldPkg.trial = some 86400 ∧
    goldPkg.duration = 2592000 ∧
    subscribeRichFix.timestamp = 1000 ∧
    process_subscribe subscribeRichFix = ProcResult.ok
      { status := SubscriptionStatus.initialized, owner := "PAYER", merchant := "MERCH"
        name := "abc:gold", joined := 1000, period_start := 1000
        period_end := 2593000, data := DEFAULT_DATA } ∧
    (2593000 : Int) ≠ 1000 + 86400 + 2592000 :=
  ⟨rfl, rfl, rfl, rfl, rfl, by decide⟩

/-- C5 amended: a successful subscribe at time now on a package of
duration d writes joined = now, period_start = now and
period_end = now + d — the trial length plays no part. -/
theorem subscribe_creation_fields (inp : SubscribeInput) (pn : String)
    (ps : List Package) (pkg : Package)
    (h1 : inp.signer.isSigner = true)
    (h2 : inp.merchant_info.owner = inp.program_id)
    (h3 : inp.order_info.owner = inp.program_id)
    (h4 : inp.merchant.is_initialized = true)
    (h5 : inp.signer.key = inp.order.payer)
    (h6 : inp.order.status = OrderStatus.paid)
    (h7 : inp.merchant_info.key = inp.order.merchant)
    (h8 : packageNameOf inp.name = some pn)
    (h9 : inp.order.order_id = pn)
    (h10 : parsePackages inp.merchant.data = some ps)
    (h11 : ps.find? (fun p => p.name == pn) = some pkg)
    (h12 : wrap64u (pkg.price * i64AsU64 pkg.duration) ≤ inp.order.paid_amount)
    (h13 : inp.rent_exempt = true)
    (hr1 : -(2 ^ 63) ≤ inp.timestamp + pkg.duration)
    (hr2 : inp.timestamp + pkg.duration < 2 ^ 63) :
    process_subscribe inp = ProcResult.ok
      { status := SubscriptionStatus.initialized
        owner := inp.signer.key
        merchant := inp.merchant_info.key
        name := inp.name
        joined := inp.timestamp
        period_start := inp.timestamp
        period_end := inp.timestamp + pkg.duration
        data := inp.maybe_data.getD DEFAULT_DATA } := by
  have hw := wrap64i_eq_of_range _ hr1 hr2
  have hnp := Nat.not_lt.mpr h12
  cases hmd : inp.maybe_data <;>
    simp [process_subscribe, h1, h2, h3, h4, h5, h6, h7, h8, h9, h10, h11,
      h13, hw, hnp, hmd]

/-- Witness for C5: the amended field equations on the fixture
invocation. -/
theorem subscribe_creation_fields_witness :
    process_subscribe subscribeRichFix = ProcResult.ok
      { status := SubscriptionStatus.initialized
        owner := subscribeRichFix.signer.key
        merchant := subscribeRichFix.merchant_info.key
        name := subscribeRichFix.name
        joined := subscribeRichFix.timestamp
        period_start := subscribeRichFix.timestamp
        period_end := subscribeRichFix.timestamp + goldPkg.duration
        data := subscribeRichFix.maybe_data.getD DEFAULT_DATA } :=
  subscribe_creation_fields subscribeRichFix "gold" [goldPkg] goldPkg
    rfl rfl rfl rfl rfl rfl rfl rfl rfl rfl rfl (by decide) rfl (by decide) (by decide)

/-- Subscribe invocation whose order data is the empty object: it names
no subscription at all. -/
def subscribeNoLinkFix : SubscribeInput :=
  { subscribeFix with order := { orderRichFix with data := DEFAULT_DATA } }

/-- C4 counterexample: subscribe succeeds although the order's data
carries no subscription reference whatsoever (the linkage parse fails on
it), so Subscribe performs no order-to-subscription cross check. -/
theorem subscribe_ignores_order_linkage_cex :
    parseOrderSubscription subscribeNoLinkFix.order.data = none ∧
    (process_subscribe subscribeNoLinkFix).isOk = true :=
  ⟨rfl, rfl⟩

/-- C4 amended: Renew and Cancel verify that the subscription reference
embedded in the order's data equals the supplied subscription account and
reject a mismatch with the wrong-order error; Subscribe performs no such
check (see the counterexample — it instead requires the order id to equal
the package name). -/
theorem renew_cancel_verify_order_linkage :
    (∀ (inp : RenewInput) (e : String),
      inp.signer.isSigner = true →
      inp.merchant_info.owner = inp.program_id →
      inp.order_info.owner = inp.program_id →
      inp.subscription_info.owner = inp.program_id →
      inp.merchant.is_initialized = true →
      parseOrderSubscription inp.order.data = some e →
      e ≠ inp.subscription_info.key →
      process_renew_subscription inp = ProcResult.err PErr.wrongOrderAccount) ∧
    (∀ (inp : CancelInput) (e : String),
      inp.signer.isSigner = true →
      inp.subscription_info.owner = inp.program_id →
      inp.order_token_info.owner = SPL_TOKEN_ID →
      inp.refund_token_info.owner = SPL_TOKEN_ID →
      inp.pda_info.key = find_program_address PDA_SEED inp.program_id →
      inp.subscription.is_initialized = true →
      inp.merchant_info.owner = inp.program_id →
      inp.order_info.owner = inp.program_id →
      inp.merchant.is_initialized = true →
      parseOrderSubscription inp.order.data = some e →
      e ≠ inp.subscription_info.key →
      process_cancel_subscription inp = ProcResult.err PErr.wrongOrderAccount) := by
  constructor
  · intro inp e h1 h2 h3 h4 h5 h6 hne
    simp [process_renew_subscription, h1, h2, h3, h4, h5, h6, hne]
  · intro inp e h1 h2 h3 h4 h5 h6 h7 h8 h9 h10 hne
    simp [process_cancel_subscription, subscribe_checks, h1, h2, h3, h4, h5,
      h6, h7, h8, h9, h10, hne]

/-- Renew invocation whose supplied subscription account differs from the
one the order's data names. -/
def renewMismatchFix : RenewInput :=
  { renewFix with subscription_info := { key := "OTHER", owner := "PID", isSigner := false } }

/-- Cancel invocation whose supplied subscription account differs from
the one the order's data names. -/
def cancelMismatchFix : CancelInput :=
  { cancelLateFix with subscription_info := { key := "OTHER", owner := "PID", isSigner := false } }

/-- Witness for C4: renew and cancel on the mismatched fixtures are
rejected with the wrong-order error. -/
theorem renew_cancel_verify_order_linkage_witness :
    process_renew_subscription renewMismatchFix = ProcResult.err PErr.wrongOrderAccount ∧
    process_cancel_subscription cancelMismatchFix = ProcResult.err PErr.wrongOrderAccount :=
  ⟨renew_cancel_verify_order_linkage.1 renewMismatchFix "SUBKEY"
      rfl rfl rfl rfl rfl rfl (by decide),
    renew_cancel_verify_order_linkage.2 cancelMismatchFix "SUBKEY"
      rfl rfl rfl rfl rfl rfl rfl rfl rfl rfl (by decide)⟩

/-- C3 counterexample: the fixture merchant's catalog offers a package
with trial support, the fixture subscription (joined 1000, trial 86400)
references this very order, the clock reads 1000 — squarely inside the
trial window — and yet withdraw succeeds and sweeps the full escrowed
paid_amount to the merchant; no subscription account even appears among
the instruction's accounts. -/
theorem withdraw_during_trial_succeeds_cex :
    parsePackages withdrawFix.merchant.data = some [goldPkg] ∧
    goldPkg.trial = some 86400 ∧
    parseOrderSubscription withdrawFix.order.data = some subInfoFix.key ∧
    subscriptionFix.joined = 1000 ∧
    withdrawFix.timestamp < wrap64i (subscriptionFix.joined + 86400) ∧
    process_withdraw_payment withdrawFix = ProcResult.ok
      { order := { orderFix with status := OrderStatus.withdrawn, modified := 1000 }
        merchant_transfer := 1000, program_owner_fee := 5000, sponsor_fee := 0 } :=
  ⟨rfl, rfl, rfl, rfl, by decide, rfl⟩

/-- C3 amended: withdraw requires no subscription record and applies no
trial-window condition: whenever the signature, ownership, linkage,
derived-address and Paid-status checks pass, the withdrawal succeeds at
every clock value, transferring the full paid_amount to the merchant
(the time only lands in the modified field). -/
theorem withdraw_has_no_trial_gate (inp : WithdrawInput)
    (h1 : inp.signer.isSigner = true)
    (h2 : inp.merchant_info.owner = inp.program_id)
    (h3 : inp.order_info.owner = inp.program_id)
    (h4 : inp.merchant_token_info.owner = SPL_TOKEN_ID)
    (h5 : inp.pda_info.key = find_program_address PDA_SEED inp.program_id)
    (h6 : inp.program_owner_token_owner = PROGRAM_OWNER)
    (h7 : inp.merchant.is_initialized = true)
    (h8 : inp.merchant_token_owner = inp.merchant.owner)
    (h9 : inp.sponsor_token_owner = inp.merchant.sponsor)
    (h10 : inp.merchant_info.key = inp.order.merchant)
    (h11 : inp.order_payment_token_info.key = inp.order.token)
    (h12 : inp.order.status = OrderStatus.paid)
    (h13 : associated_token_address inp.order_info.key SPL_TOKEN_ID inp.order.mint inp.program_id
      = inp.order_payment_token_info.key) :
    ∀ t : Int, process_withdraw_payment { inp with timestamp := t } = ProcResult.ok
      { order := { inp.order with status := OrderStatus.withdrawn, modified := t }
        merchant_transfer := inp.order.paid_amount
        program_owner_fee :=
          if inp.merchant.sponsor = PROGRAM_OWNER then inp.order.fee_amount
          else (get_amounts inp.order.fee_amount SPONSOR_FEE).1
        sponsor_fee :=
          if inp.merchant.sponsor = PROGRAM_OWNER then 0
          else (get_amounts inp.order.fee_amount SPONSOR_FEE).2 } := by
  intro t
  have hinit : inp.order.is_initialized = true := by
    simp [OrderAccount.is_initialized, h12, OrderStatus.paid, OrderStatus.uninitialized]
  unfold process_withdraw_payment
  dsimp only
  simp only [h1, h2, h3, h4, h5, h6, h7, h8, h9, h10, h11, h12, h13, hinit]
  simp
  constructor <;> split_ifs <;> rfl

/-- Witness for C3: the amended statement on the fixture withdrawal at
clock 424242. -/
theorem withdraw_has_no_trial_gate_witness :
    process_withdraw_payment { withdrawFix with timestamp := 424242 } = ProcResult.ok
      { order := { withdrawFix.order with status := OrderStatus.withdrawn, modified := 424242 }
        merchant_transfer := withdrawFix.order.paid_amount
        program_owner_fee :=
          if withdrawFix.merchant.sponsor = PROGRAM_OWNER then withdrawFix.order.fee_amount
          else (get_amounts withdrawFix.order.fee_amount SPONSOR_FEE).1
        sponsor_fee :=
          if withdrawFix.merchant.sponsor = PROGRAM_OWNER then 0
          else (get_amounts withdrawFix.order.fee_amount SPONSOR_FEE).2 } :=
  withdraw_has_no_trial_gate withdrawFix
    rfl rfl rfl rfl rfl rfl rfl rfl rfl rfl rfl rfl rfl 424242

/-- A successful withdrawal requires a Paid order. -/
theorem process_withdraw_ok_inv (inp : WithdrawInput) (r : WithdrawResult)
    (h : process_withdraw_payment inp = ProcResult.ok r) :
    inp.order.status = OrderStatus.paid := by
  unfold process_withdraw_payment at h
  by_cases c1 : (!inp.signer.isSigner) = true
  · rw [if_pos c1] at h; exact ProcResult.noConfusion h
  rw [if_neg c1] at h
  by_cases c2 : inp.merchant_info.owner ≠ inp.program_id
  · rw [if_pos c2] at h; exact ProcResult.noConfusion h
  rw [if_neg c2] at h
  by_cases c3 : inp.order_info.owner ≠ inp.program_id
  · rw [if_pos c3] at h; exact ProcResult.noConfusion h
  rw [if_neg c3] at h
  by_cases c4 : inp.merchant_token_info.owner ≠ SPL_TOKEN_ID
  · rw [if_pos c4] at h; exact ProcResult.noConfusion h
  rw [if_neg c4] at h
  by_cases c5 : inp.pda_info.key ≠ find_program_address PDA_SEED inp.program_id
  · rw [if_pos c5] at h; exact ProcResult.noConfusion h
  rw [if_neg c5] at h
  by_cases c6 : inp.program_owner_token_owner ≠ PROGRAM_OWNER
  · rw [if_pos c6] at h; exact ProcResult.noConfusion h
  rw [if_neg c6] at h
  by_cases c7 : (!inp.merchant.is_initialized) = true
  · rw [if_pos c7] at h; exact ProcResult.noConfusion h
  rw [if_neg c7] at h
  by_cases c8 : inp.merchant_token_owner ≠ inp.merchant.owner
  · rw [if_pos c8] at h; exact ProcResult.noConfusion h
  rw [if_neg c8] at h
  by_cases c9 : inp.sponsor_token_owner ≠ inp.merchant.sponsor
  · rw [if_pos c9] at h; exact ProcResult.noConfusion h
  rw [if_neg c9] at h
  by_cases c10 : (!inp.order.is_initialized) = true
  · rw [if_pos c10] at h; exact ProcResult.noConfusion h
  rw [if_neg c10] at h
  by_cases c11 : inp.merchant_info.key ≠ inp.order.merchant
  · rw [if_pos c11] at h; exact ProcResult.noConfusion h
  rw [if_neg c11] at h
  by_cases c12 : inp.order_payment_token_info.key ≠ inp.order.token
  · rw [if_pos c12] at h; exact ProcResult.noConfusion h
  rw [if_neg c12] at h
  by_cases c13 : inp.order.status ≠ OrderStatus.paid
  · rw [if_pos c13] at h; exact ProcResult.noConfusion h
  exact not_not.mp c13

/-- A successful cancellation requires a Paid order. -/
theorem process_cancel_ok_inv (inp : CancelInput) (r : CancelResult)
    (h : process_cancel_subscription inp = ProcResult.ok r) :
    inp.order.status = OrderStatus.paid := by
  unfold process_cancel_subscription at h
  by_cases c1 : (!inp.signer.isSigner) = true
  · rw [if_pos c1] at h; exact ProcResult.noConfusion h
  rw [if_neg c1] at h
  by_cases c2 : inp.subscription_info.owner ≠ inp.program_id
  · rw [if_pos c2] at h; exact ProcResult.noConfusion h
  rw [if_neg c2] at h
  by_cases c3 : inp.order_token_info.owner ≠ SPL_TOKEN_ID
  · rw [if_pos c3] at h; exact ProcResult.noConfusion h
  rw [if_neg c3] at h
  by_cases c4 : inp.refund_token_info.owner ≠ SPL_TOKEN_ID
  · rw [if_pos c4] at h; exact ProcResult.noConfusion h
  rw [if_neg c4] at h
  by_cases c5 : inp.pda_info.key ≠ find_program_address PDA_SEED inp.program_id
  · rw [if_pos c5] at h; exact ProcResult.noConfusion h
  rw [if_neg c5] at h
  by_cases c6 : (!inp.subscription.is_initialized) = true
  · rw [if_pos c6] at h; exact ProcResult.noConfusion h
  rw [if_neg c6] at h
  cases hX : subscribe_checks
      { program_id := inp.program_id, signer := inp.signer
        merchant_info := inp.merchant_info, order_info := inp.order_info
        subscription_info := inp.subscription_info
        merchant := inp.merchant, order := inp.order }
      inp.subscription.name with
  | panic =>
    rw [hX] at h
    exact ProcResult.noConfusion h
  | err e =>
    rw [hX] at h
    exact ProcResult.noConfusion h
  | ok p =>
    exact (subscribe_checks_ok_inv _ _ _ hX).1

/-- C7: a terminal order (Cancelled or Withdrawn) is frozen — the two
operations that rewrite an order's status, withdraw and cancel, both
refuse to produce a success outcome on it, because each requires
status = Paid before mutating (subscribe and renew never write the order
record at all: their outcomes carry only the subscription). -/
theorem terminal_order_status_is_frozen :
    (∀ w : WithdrawInput,
      w.order.status = OrderStatus.cancelled ∨ w.order.status = OrderStatus.withdrawn →
      (process_withdraw_payment w).isOk = false) ∧
    (∀ c : CancelInput,
      c.order.status = OrderStatus.cancelled ∨ c.order.status = OrderStatus.withdrawn →
      (process_cancel_subscription c).isOk = false) := by
  constructor
  · intro w hw
    cases hres : process_withdraw_payment w with
    | ok r =>
      have := process_withdraw_ok_inv w r hres
      simp_all [OrderStatus.paid, OrderStatus.cancelled, OrderStatus.withdrawn]
    | err e => rfl
    | panic => rfl
  · intro c hc
    cases hres : process_cancel_subscription c with
    | ok r =>
      have := process_cancel_ok_inv c r hres
      simp_all [OrderStatus.paid, OrderStatus.cancelled, OrderStatus.withdrawn]
    | err e => rfl
    | panic => rfl

/-- Withdraw invocation on an already-cancelled fixture order. -/
def withdrawTermFix : WithdrawInput :=
  { withdrawFix with order := { orderFix with status := OrderStatus.cancelled } }

/-- Cancel invocation on an already-withdrawn fixture order. -/
def cancelTermFix : CancelInput :=
  { cancelLateFix with order := { orderFix with status := OrderStatus.withdrawn } }

/-- Witness for C7: neither withdraw nor cancel succeeds on the terminal
fixture orders. -/
theorem terminal_order_status_is_frozen_witness :
    (process_withdraw_payment withdrawTermFix).isOk = false ∧
    (process_cancel_subscription cancelTermFix).isOk = false :=
  ⟨terminal_order_status_is_frozen.1 withdrawTermFix (Or.inl rfl),
    terminal_order_status_is_frozen.2 cancelTermFix (Or.inr rfl)⟩

/-- C9: a successful renew with quantity q on a package of duration d
either restarts a lapsed period (now past period_end: period_start = now
and period_end = now + d * q) or extends the running one (period_start
kept, period_end increased by d * q); the range hypotheses keep the i64
arithmetic away from the wrap. -/
theorem renew_period_arithmetic (inp : RenewInput) (pn : String)
    (ps : List Package) (pkg : Package)
    (h1 : inp.signer.isSigner = true)
    (h2 : inp.merchant_info.owner = inp.program_id)
    (h3 : inp.order_info.owner = inp.program_id)
    (h4 : inp.subscription_info.owner = inp.program_id)
    (h5 : inp.merchant.is_initialized = true)
    (h6 : parseOrderSubscription inp.order.data = some inp.subscription_info.key)
    (h7 : inp.signer.key = inp.order.payer)
    (h8 : inp.order.status = OrderStatus.paid)
    (h9 : inp.merchant_info.key = inp.order.merchant)
    (h10 : inp.subscription.is_initialized = true)
    (h11 : packageNameOf inp.subscription.name = some pn)
    (h12 : parsePackages inp.merchant.data = some ps)
    (h13 : ps.find? (fun p => p.name == pn) = some pkg)
    (h14 : wrap64u (i64AsU64 inp.quantity * pkg.price) ≤ inp.order.paid_amount)
    (hr1 : -(2 ^ 63) ≤ pkg.duration * inp.quantity)
    (hr2 : pkg.duration * inp.quantity < 2 ^ 63)
    (hr3 : -(2 ^ 63) ≤ inp.timestamp + pkg.duration * inp.quantity)
    (hr4 : inp.timestamp + pkg.duration * inp.quantity < 2 ^ 63)
    (hr5 : -(2 ^ 63) ≤ inp.subscription.period_end + pkg.duration * inp.quantity)
    (hr6 : inp.subscription.period_end + pkg.duration * inp.quantity < 2 ^ 63) :
    (inp.subscription.period_end < inp.timestamp →
      process_renew_subscription inp = ProcResult.ok { inp.subscription with
        period_start := inp.timestamp
        period_end := inp.timestamp + pkg.duration * inp.quantity }) ∧
    (inp.timestamp ≤ inp.subscription.period_end →
      process_renew_subscription inp = ProcResult.ok { inp.subscription with
        period_end := inp.subscription.period_end + pkg.duration * inp.quantity }) := by
  have hq := wrap64i_eq_of_range _ hr1 hr2
  have hnp := Nat.not_lt.mpr h14
  constructor <;> intro ht
  · simp [process_renew_subscription, h1, h2, h3, h4, h5, h6, h7, h8, h9, h10,
      h11, h12, h13, hnp, hq, ht, wrap64i_eq_of_range _ hr3 hr4]
  · simp [process_renew_subscription, h1, h2, h3, h4, h5, h6, h7, h8, h9, h10,
      h11, h12, h13, hnp, hq, Int.not_lt.mpr ht, wrap64i_eq_of_range _ hr5 hr6]

/-- Renew invocation inside the running fixture period. -/
def renewEarlyFix : RenewInput := { renewFix with timestamp := 2000000 }

/-- Witness for C9: the lapsed fixture renewal restarts at the clock, the
in-period one extends the stored period_end. -/
theorem renew_period_arithmetic_witness :
    process_renew_subscription renewFix = ProcResult.ok { subscriptionFix with
      period_start := 5000000, period_end := 5000000 + goldPkg.duration * 1 } ∧
    process_renew_subscription renewEarlyFix = ProcResult.ok { subscriptionFix with
      period_end := subscriptionFix.period_end + goldPkg.duration * 1 } :=
  ⟨(renew_period_arithmetic renewFix "gold" [goldPkg] goldPkg
      rfl rfl rfl rfl rfl rfl rfl rfl rfl rfl rfl rfl rfl (by decide)
      (by decide) (by decide) (by decide) (by decide) (by decide) (by decide)).1
      (by decide),
    (renew_period_arithmetic renewEarlyFix "gold" [goldPkg] goldPkg
      rfl rfl rfl rfl rfl rfl rfl rfl rfl rfl rfl rfl rfl (by decide)
      (by decide) (by decide) (by decide) (by decide) (by decide) (by decide)).2
      (by decide)⟩

/-- C10: a subscription name without a colon drives the package-name
extraction out of bounds — the split yields a single piece, element 1
does not exist — and each of subscribe, renew and cancel, once its prior
checks pass, ends in the Rust panic rather than a returned error. -/
theorem missing_colon_panics :
    (∀ s : String, (':') ∉ s.data → packageNameOf s = none) ∧
    (∀ inp : SubscribeInput,
      inp.signer.isSigner = true →
      inp.merchant_info.owner = inp.program_id →
      inp.order_info.owner = inp.program_id →
      inp.merchant.is_initialized = true →
      inp.signer.key = inp.order.payer →
      inp.order.status = OrderStatus.paid →
      inp.merchant_info.key = inp.order.merchant →
      (':') ∉ inp.name.data →
      process_subscribe inp = ProcResult.panic) ∧
    (∀ inp : RenewInput,
      inp.signer.isSigner = true →
      inp.merchant_info.owner = inp.program_id →
      inp.order_info.owner = inp.program_id →
      inp.subscription_info.owner = inp.program_id →
      inp.merchant.is_initialized = true →
      parseOrderSubscription inp.order.data = some inp.subscription_info.key →
      inp.signer.key = inp.order.payer →
      inp.order.status = OrderStatus.paid →
      inp.merchant_info.key = inp.order.merchant →
      inp.subscription.is_initialized = true →
      (':') ∉ inp.subscription.name.data →
      process_renew_subscription inp = ProcResult.panic) ∧
    (∀ inp : CancelInput,
      inp.signer.isSigner = true →
      inp.subscription_info.owner = inp.program_id →
      inp.order_token_info.owner = SPL_TOKEN_ID →
      inp.refund_token_info.owner = SPL_TOKEN_ID →
      inp.pda_info.key = find_program_address PDA_SEED inp.program_id →
      inp.subscription.is_initialized = true →
      inp.merchant_info.owner = inp.program_id →
      inp.order_info.owner = inp.program_id →
      inp.merchant.is_initialized = true →
      parseOrderSubscription inp.order.data = some inp.subscription_info.key →
      inp.signer.key = inp.order.payer →
      inp.order.status = OrderStatus.paid →
      inp.merchant_info.key = inp.order.merchant →
      (':') ∉ inp.subscription.name.data →
      process_cancel_subscription inp = ProcResult.panic) := by
  refine ⟨packageNameOf_of_no_colon, ?_, ?_, ?_⟩
  · intro inp h1 h2 h3 h4 h5 h6 h7 hc
    simp [process_subscribe, h1, h2, h3, h4, h5, h6, h7,
      packageNameOf_of_no_colon _ hc]
  · intro inp h1 h2 h3 h4 h5 h6 h7 h8 h9 h10 hc
    simp [process_renew_subscription, h1, h2, h3, h4, h5, h6, h7, h8, h9, h10,
      packageNameOf_of_no_colon _ hc]
  · intro inp h1 h2 h3 h4 h5 h6 h7 h8 h9 h10 h11 h12 h13 hc
    simp [process_cancel_subscription, subscribe_checks, h1, h2, h3, h4, h5, h6,
      h7, h8, h9, h10, h11, h12, h13, packageNameOf_of_no_colon _ hc]

/-- Subscribe invocation whose name has no colon. -/
def subscribePanicFix : SubscribeInput := { subscribeFix with name := "abcgold" }

/-- Renew invocation whose stored subscription name has no colon. -/
def renewPanicFix : RenewInput :=
  { renewFix with subscription := { subscriptionFix with name := "nocolon" } }

/-- Cancel invocation whose stored subscription name has no colon. -/
def cancelPanicFix : CancelInput :=
  { cancelLateFix with subscription := { subscriptionFix with name := "nocolon" } }

/-- Witness for C10: the extraction fails on a colon-free name and all
three fixture invocations reach the panic. -/
theorem missing_colon_panics_witness :
    packageNameOf "abcgold" = none ∧
    process_subscribe subscribePanicFix = ProcResult.panic ∧
    process_renew_subscription renewPanicFix = ProcResult.panic ∧
    process_cancel_subscription cancelPanicFix = ProcResult.panic :=
  ⟨missing_colon_panics.1 "abcgold" (by decide),
    missing_colon_panics.2.1 subscribePanicFix rfl rfl rfl rfl rfl rfl rfl (by decide),
    missing_colon_panics.2.2.1 renewPanicFix
      rfl rfl rfl rfl rfl rfl rfl rfl rfl rfl (by decide),
    missing_colon_panics.2.2.2 cancelPanicFix
      rfl rfl rfl rfl rfl rfl rfl rfl rfl rfl rfl rfl rfl (by decide)⟩

end PayProc
